import Mathlib

/-!
Shallow embedding of the `tt-golang` user-balance ledger service.

The definitions below are translated from the Go sources:
 * `internal/database/currency.go`  — rate table, `IsCurrencyValid`, `ConvertCurrency`;
 * `internal/database/mutate.go`    — `TopUp`, `Reserve`, `CommitReservation`,
   `CancelReservation`;
 * `internal/database/query.go`     — `FetchUserBalance`, `FetchStatistics`.

Monetary values (`shopspring/decimal` in Go) are embedded as rationals (`ℚ`):
`Add`/`Sub`/`Mul` on shopspring decimals are exact, and `Div` rounds the exact
quotient to `DivisionPrecision = 16` fractional digits, rounding half away from
zero; `decimalDiv` below reproduces that rounding.

The PostgreSQL state touched by the engine is embedded as three lists of rows
(`balance`, `balance_reserve`, `transaction`).  Each Go function is a pure
state transformer returning the call result together with the resulting table
state; `tx.Rollback` corresponds to returning the tables the session started
from, and the `INSERT ... ON CONFLICT DO NOTHING` executed before the session
opens (`initUserBalance`) corresponds to a state change that survives a later
rollback.

Library functions from outside the repository that the engine calls
(`decimal.NewFromString`, `encoding/json.Valid`) are abstracted as an `Env` of
oracles, and the snowflake id minted by `utils.GenerateID()` is passed in as
an explicit parameter; no claim depends on their internals.
-/

/-- Error taxonomy of `internal/proto` (constructors `NewBadParameterError`,
`NewUserNotFoundError`, `NewNotEnoughMoneyError`, `NewInvalidCurrencyError`,
`NewInvalidStateError`), plus a constructor for wrapped infrastructure
errors (`fmt.Errorf` wrappings). -/
inductive BalanceError where
  | badParameter (name : String)
  | userNotFound
  | notEnoughMoney
  | invalidCurrency (code : String)
  | invalidState
  | internal (msg : String)
deriving DecidableEq, Repr

/-- `baseCurrency` global of `currency.go`, loaded from the stub snapshot. -/
def baseCurrency : String := "EUR"

/-- The `rates` map of `currency.go`, loaded by `loadRatesFromStub` from the
embedded JSON snapshot; `decimal.NewFromFloat` yields exactly the decimal
literal written in the stub for every entry. -/
def ratesList : List (String × ℚ) := [
  ("AED", (3799913 : ℚ) / 1000000),
  ("AFN", (91040516 : ℚ) / 1000000),
  ("ALL", (117162584 : ℚ) / 1000000),
  ("AMD", (408830211 : ℚ) / 1000000),
  ("ANG", (1862988 : ℚ) / 1000000),
  ("AOA", (528802751 : ℚ) / 1000000),
  ("ARS", (168470072 : ℚ) / 1000000),
  ("AUD", (1549912 : ℚ) / 1000000),
  ("AWG", (1862191 : ℚ) / 1000000),
  ("AZN", (1756403 : ℚ) / 1000000),
  ("BAM", (1950345 : ℚ) / 1000000),
  ("BBD", (208717 : ℚ) / 100000),
  ("BDT", (106527193 : ℚ) / 1000000),
  ("BGN", (1960269 : ℚ) / 1000000),
  ("BHD", (389326 : ℚ) / 1000000),
  ("BIF", (2123932057 : ℚ) / 1000000),
  ("BMD", (103455 : ℚ) / 100000),
  ("BND", (141915 : ℚ) / 100000),
  ("BOB", (7143049 : ℚ) / 1000000),
  ("BRL", (5568784 : ℚ) / 1000000),
  ("BSD", (1033723 : ℚ) / 1000000),
  ("BTC", (62510943 : ℚ) / 1000000000000),
  ("BTN", (84429292 : ℚ) / 1000000),
  ("BWP", (13390494 : ℚ) / 1000000),
  ("BYN", (2610758 : ℚ) / 1000000),
  ("BYR", (20277188664 : ℚ) / 1000000),
  ("BZD", (208368 : ℚ) / 100000),
  ("CAD", (1387281 : ℚ) / 1000000),
  ("CDF", (2114620859 : ℚ) / 1000000),
  ("CHF", (987777 : ℚ) / 1000000),
  ("CLF", (35311 : ℚ) / 1000000),
  ("CLP", (974339479 : ℚ) / 1000000),
  ("CNY", (73659 : ℚ) / 10000),
  ("COP", (5161196282 : ℚ) / 1000000),
  ("CRC", (631117254 : ℚ) / 1000000),
  ("CUC", (103455 : ℚ) / 100000),
  ("CUP", (27415587 : ℚ) / 1000000),
  ("CVE", (110541277 : ℚ) / 1000000),
  ("CZK", (24399839 : ℚ) / 1000000),
  ("DJF", (183860512 : ℚ) / 1000000),
  ("DKK", (7453415 : ℚ) / 1000000),
  ("DOP", (56385041 : ℚ) / 1000000),
  ("DZD", (143858337 : ℚ) / 1000000),
  ("EGP", (25412711 : ℚ) / 1000000),
  ("ERN", (15518257 : ℚ) / 1000000),
  ("ETB", (54800194 : ℚ) / 1000000),
  ("EUR", (1 : ℚ)),
  ("FJD", (2307824 : ℚ) / 1000000),
  ("FKP", (869885 : ℚ) / 1000000),
  ("GBP", (870211 : ℚ) / 1000000),
  ("GEL", (2814406 : ℚ) / 1000000),
  ("GGP", (869885 : ℚ) / 1000000),
  ("GHS", (15000588 : ℚ) / 1000000),
  ("GIP", (869885 : ℚ) / 1000000),
  ("GMD", (63626077 : ℚ) / 1000000),
  ("GNF", (9078179937 : ℚ) / 1000000),
  ("GTQ", (8071317 : ℚ) / 1000000),
  ("GYD", (21627176 : ℚ) / 100000),
  ("HKD", (8092202 : ℚ) / 1000000),
  ("HNL", (25708943 : ℚ) / 1000000),
  ("HRK", (7526667 : ℚ) / 1000000),
  ("HTG", (142655555 : ℚ) / 1000000),
  ("HUF", (407343721 : ℚ) / 1000000),
  ("IDR", (16181817284 : ℚ) / 1000000),
  ("ILS", (3586375 : ℚ) / 1000000),
  ("IMP", (869885 : ℚ) / 1000000),
  ("INR", (84336707 : ℚ) / 1000000),
  ("IQD", (1510443645 : ℚ) / 1000000),
  ("IRR", (43864938367 : ℚ) / 1000000),
  ("ISK", (149202686 : ℚ) / 1000000),
  ("JEP", (869885 : ℚ) / 1000000),
  ("JMD", (158931096 : ℚ) / 1000000),
  ("JOD", (733449 : ℚ) / 1000000),
  ("JPY", (145193963 : ℚ) / 1000000),
  ("KES", (126370682 : ℚ) / 1000000),
  ("KGS", (87360855 : ℚ) / 1000000),
  ("KHR", (4283038765 : ℚ) / 1000000),
  ("KMF", (492960672 : ℚ) / 1000000),
  ("KPW", (931095413 : ℚ) / 1000000),
  ("KRW", (1386328965 : ℚ) / 1000000),
  ("KWD", (318431 : ℚ) / 1000000),
  ("KYD", (861407 : ℚ) / 1000000),
  ("KZT", (47753698 : ℚ) / 100000),
  ("LAK", (19087455773 : ℚ) / 1000000),
  ("LBP", (850922872 : ℚ) / 1000000),
  ("LKR", (379902419 : ℚ) / 1000000),
  ("LRD", (159320487 : ℚ) / 1000000),
  ("LSL", (1797059 : ℚ) / 100000),
  ("LTL", (3054759 : ℚ) / 1000000),
  ("LVL", (625789 : ℚ) / 1000000),
  ("LYD", (5064168 : ℚ) / 1000000),
  ("MAD", (1108469 : ℚ) / 100000),
  ("MDL", (19821741 : ℚ) / 1000000),
  ("MGA", (4466154127 : ℚ) / 1000000),
  ("MKD", (61442201 : ℚ) / 1000000),
  ("MMK", (2170870312 : ℚ) / 1000000),
  ("MNT", (3531935 : ℚ) / 1000),
  ("MOP", (8328658 : ℚ) / 1000000),
  ("MRO", (36933433 : ℚ) / 100000),
  ("MUR", (45147845 : ℚ) / 1000000),
  ("MVR", (15947597 : ℚ) / 1000000),
  ("MWK", (1059379798 : ℚ) / 1000000),
  ("MXN", (20112179 : ℚ) / 1000000),
  ("MYR", (4711139 : ℚ) / 1000000),
  ("MZN", (66035672 : ℚ) / 1000000),
  ("NAD", (17969926 : ℚ) / 1000000),
  ("NGN", (457953764 : ℚ) / 1000000),
  ("NIO", (37243989 : ℚ) / 1000000),
  ("NOK", (10545328 : ℚ) / 1000000),
  ("NPR", (135088648 : ℚ) / 1000000),
  ("NZD", (1681513 : ℚ) / 1000000),
  ("OMR", (397771 : ℚ) / 1000000),
  ("PAB", (1033713 : ℚ) / 1000000),
  ("PEN", (3940344 : ℚ) / 1000000),
  ("PGK", (3641493 : ℚ) / 1000000),
  ("PHP", (59183546 : ℚ) / 1000000),
  ("PKR", (23013581 : ℚ) / 100000),
  ("PLN", (4708911 : ℚ) / 1000000),
  ("PYG", (7412496478 : ℚ) / 1000000),
  ("QAR", (3766285 : ℚ) / 1000000),
  ("RON", (4951383 : ℚ) / 1000000),
  ("RSD", (11732505 : ℚ) / 100000),
  ("RUB", (62952522 : ℚ) / 1000000),
  ("RWF", (1091450716 : ℚ) / 1000000),
  ("SAR", (3888389 : ℚ) / 1000000),
  ("SBD", (8514963 : ℚ) / 1000000),
  ("SCR", (14975175 : ℚ) / 1000000),
  ("SDG", (58917846 : ℚ) / 100000),
  ("SEK", (11003891 : ℚ) / 1000000),
  ("SGD", (1423647 : ℚ) / 1000000),
  ("SHP", (1424989 : ℚ) / 1000000),
  ("SLE", (18715042 : ℚ) / 1000000),
  ("SLL", (18647772106 : ℚ) / 1000000),
  ("SOS", (58814321 : ℚ) / 100000),
  ("SRD", (31699142 : ℚ) / 1000000),
  ("STD", (21413105401 : ℚ) / 1000000),
  ("SVC", (9044563 : ℚ) / 1000000),
  ("SYP", (2599337015 : ℚ) / 1000000),
  ("SZL", (17970319 : ℚ) / 1000000),
  ("THB", (37046883 : ℚ) / 1000000),
  ("TJS", (10551326 : ℚ) / 1000000),
  ("TMT", (3631272 : ℚ) / 1000000),
  ("TND", (3273836 : ℚ) / 1000000),
  ("TOP", (2454315 : ℚ) / 1000000),
  ("TRY", (19264674 : ℚ) / 1000000),
  ("TTD", (7016602 : ℚ) / 1000000),
  ("TWD", (32201729 : ℚ) / 1000000),
  ("TZS", (2412571578 : ℚ) / 1000000),
  ("UAH", (38177783 : ℚ) / 1000000),
  ("UGX", (3860941532 : ℚ) / 1000000),
  ("USD", (103455 : ℚ) / 100000),
  ("UYU", (41131521 : ℚ) / 1000000),
  ("UZS", (11607656055 : ℚ) / 1000000),
  ("VEF", (1011298968166 : ℚ) / 1000000),
  ("VND", (25664610091 : ℚ) / 1000000),
  ("VUV", (122823144 : ℚ) / 1000000),
  ("WST", (2881748 : ℚ) / 1000000),
  ("XAF", (654133131 : ℚ) / 1000000),
  ("XAG", (49449 : ℚ) / 1000000),
  ("XAU", (591 : ℚ) / 1000000),
  ("XCD", (2795925 : ℚ) / 1000000),
  ("XDR", (788801 : ℚ) / 1000000),
  ("XOF", (663672391 : ℚ) / 1000000),
  ("XPF", (119645986 : ℚ) / 1000000),
  ("YER", (258922152 : ℚ) / 1000000),
  ("ZAR", (17856723 : ℚ) / 1000000),
  ("ZMK", (9312187622 : ℚ) / 1000000),
  ("ZMW", (17227433 : ℚ) / 1000000),
  ("ZWL", (33312482 : ℚ) / 100000)]

deriving instance DecidableEq for Except

/-- Map access `rates[currency]` of `currency.go`. -/
def lookupRate (currency : String) : Option ℚ :=
  ratesList.lookup currency

/-- `IsCurrencyValid` of `currency.go`: the code is present in the rate map. -/
def IsCurrencyValid (currency : String) : Bool :=
  (lookupRate currency).isSome

/-- Rounding of a rational to the nearest integer, ties away from zero —
the rounding rule of `shopspring/decimal.DivRound`. -/
def roundHalfAway (q : ℚ) : ℤ :=
  if 0 ≤ q then ⌊q + 1 / 2⌋ else -⌊(-q) + 1 / 2⌋

/-- `shopspring/decimal.Div`: the exact quotient rounded to
`DivisionPrecision = 16` fractional digits, half away from zero. -/
def decimalDiv (a b : ℚ) : ℚ :=
  (roundHalfAway (a / b * 10 ^ 16) : ℚ) / 10 ^ 16

/-- `ConvertCurrency` of `currency.go`. -/
def ConvertCurrency (value : ℚ) (src dst : String) : Except BalanceError ℚ :=
  if value < 0 then .error (.badParameter "value")
  else if src = dst then .error (.badParameter "currency")
  else
    let valueInBase? : Except BalanceError ℚ :=
      if src = baseCurrency then .ok value
      else
        match lookupRate src with
        | none => .error (.invalidCurrency src)
        | some rate => .ok (if value = 0 then 0 else decimalDiv value rate)
    match valueInBase? with
    | .error e => .error e
    | .ok valueInBase =>
      if dst = baseCurrency then .ok valueInBase
      else
        match lookupRate dst with
        | none => .error (.invalidCurrency dst)
        | some rate => .ok (if value = 0 then 0 else valueInBase * rate)


/-! ## Data model: the three relations of the persisted schema -/

/-- A row of the `balance` relation (`user_id PK, currency, current_value`). -/
structure Balance where
  userId : String
  currency : String
  currentValue : ℚ
deriving DecidableEq, Repr

/-- A row of the `balance_reserve` relation
(`order_id PK, user_id, item_id, currency, value, user_currency_value`). -/
structure ReserveRow where
  orderId : String
  userId : String
  itemId : String
  currency : String
  value : ℚ
  userCurrencyValue : ℚ
deriving DecidableEq, Repr

/-- The `order_data` JSON column written by `CommitReservation`
(`json.Marshal` of `{order_id, item_id omitempty}`); an empty `itemId`
corresponds to the `item_id` key being absent. -/
structure OrderData where
  orderId : String
  itemId : String
deriving DecidableEq, Repr

/-- A row of the `transaction` relation. -/
structure Txn where
  id : ℤ
  currency : String
  value : ℚ
  senderId : Option String := none
  senderCurrency : Option String := none
  senderValue : Option ℚ := none
  senderBalanceBefore : Option ℚ := none
  senderBalanceAfter : Option ℚ := none
  recipientId : Option String := none
  recipientCurrency : Option String := none
  recipientValue : Option ℚ := none
  recipientBalanceBefore : Option ℚ := none
  recipientBalanceAfter : Option ℚ := none
  orderData : Option OrderData := none
  merchantData : Option String := none
  idempotencyKey : Option String := none
deriving DecidableEq, Repr

/-- The database state: the three relations the engine touches. -/
structure DB where
  balances : List Balance
  reserves : List ReserveRow
  transactions : List Txn
deriving DecidableEq, Repr

/-- Library oracles from outside the repository: `decimal.NewFromString`
(`none` = parse error) and `encoding/json.Valid`. -/
structure Env where
  parseDecimal : String → Option ℚ
  jsonValid : String → Bool

/-- `SELECT ... FROM balance WHERE user_id = $1` (at most one row:
`user_id` is the primary key). -/
def findBalance (db : DB) (userId : String) : Option Balance :=
  db.balances.find? (fun b => b.userId == userId)

/-- `order_data ->> 'order_id'` of a transaction row (`none` when
`order_data` is NULL). -/
def txOrderId (t : Txn) : Option String :=
  t.orderData.map (·.orderId)

/-- `SELECT id FROM transaction WHERE order_data->>'order_id' = $1`. -/
def findTxByOrder (db : DB) (orderId : String) : Option Txn :=
  db.transactions.find? (fun t => txOrderId t == some orderId)

/-- `SELECT id FROM transaction WHERE idempotency_key = $1`. -/
def findTxByIdemKey (db : DB) (key : String) : Option Txn :=
  db.transactions.find? (fun t => t.idempotencyKey == some key)

/-- The reserve rows of one user
(`SELECT ... FROM balance_reserve WHERE user_id = $1`). -/
def userReserves (db : DB) (userId : String) : List ReserveRow :=
  db.reserves.filter (fun r => r.userId == userId)

/-- `SELECT SUM(user_currency_value) FROM balance_reserve WHERE user_id = $1`;
SQL `SUM` over zero rows is NULL, which the caller treats as 0, so the
empty sum models it faithfully. -/
def sumUserReserves (db : DB) (userId : String) : ℚ :=
  (userReserves db userId).foldr (fun r acc => r.userCurrencyValue + acc) 0

/-- `initUserBalance` of `mutate.go`: `INSERT INTO balance ... VALUES
($1, $2, 0) ON CONFLICT DO NOTHING`.  Runs outside the mutation session
(autocommit), so its effect survives a later rollback. -/
def initUserBalance (db : DB) (userId currency : String) : DB :=
  match findBalance db userId with
  | some _ => db
  | none => { db with balances := db.balances ++ [⟨userId, currency, 0⟩] }

/-- `UPDATE balance SET current_value = $2 WHERE user_id = $1`. -/
def setBalanceValue (db : DB) (userId : String) (newValue : ℚ) : DB :=
  { db with balances :=
      db.balances.map (fun b => if b.userId == userId then { b with currentValue := newValue } else b) }

/-! ## The four mutations of `mutate.go` -/

/-- `TopUp` of `mutate.go`.  `newId` is the snowflake id that
`utils.GenerateID()` would mint for this call.  The second component of
the result is the table state after the session commits or rolls back. -/
def TopUp (env : Env) (db : DB) (newId : ℤ)
    (idempotencyKey userId currency value merchantData : String) :
    Except BalanceError ℤ × DB :=
  if idempotencyKey = "" then (.error (.badParameter "idempotency key"), db)
  else if userId = "" then (.error (.badParameter "user id"), db)
  else if !IsCurrencyValid currency then (.error (.badParameter "currency"), db)
  else
    match env.parseDecimal value with
    | none => (.error (.badParameter "value"), db)
    | some topUpValue =>
      if topUpValue ≤ 0 then (.error (.badParameter "value"), db)
      else if merchantData ≠ "" ∧ env.jsonValid merchantData = false then
        (.error (.badParameter "merchant data"), db)
      else
        let db1 := initUserBalance db userId currency
        match findBalance db1 userId with
        | none => (.error (.internal "lock balance"), db1)
        | some bal =>
          match findTxByIdemKey db1 idempotencyKey with
          | some t => (.ok t.id, db1)
          | none =>
            let topUpInUserCurrency? : Except BalanceError ℚ :=
              if currency = bal.currency then .ok topUpValue
              else ConvertCurrency topUpValue currency bal.currency
            match topUpInUserCurrency? with
            | .error e => (.error e, db1)
            | .ok topUpInUserCurrency =>
              let balanceNewValue := bal.currentValue + topUpInUserCurrency
              let txn : Txn :=
                { id := newId, currency := currency, value := topUpValue,
                  recipientId := some userId, recipientCurrency := some bal.currency,
                  recipientValue := some topUpInUserCurrency,
                  recipientBalanceBefore := some bal.currentValue,
                  recipientBalanceAfter := some balanceNewValue,
                  merchantData := if merchantData = "" then none else some merchantData,
                  idempotencyKey := some idempotencyKey }
              (.ok newId,
                setBalanceValue { db1 with transactions := db1.transactions ++ [txn] }
                  userId balanceNewValue)

/-- `Reserve` of `mutate.go`. -/
def Reserve (env : Env) (db : DB) (userId currency value orderId itemId : String) :
    Except BalanceError Unit × DB :=
  if userId = "" then (.error (.badParameter "user id"), db)
  else if !IsCurrencyValid currency then (.error (.badParameter "currency"), db)
  else
    match env.parseDecimal value with
    | none => (.error (.badParameter "value"), db)
    | some reserveValue =>
      if reserveValue ≤ 0 then (.error (.badParameter "value"), db)
      else if orderId = "" then (.error (.badParameter "order id"), db)
      else
        let db1 := initUserBalance db userId currency
        match findBalance db1 userId with
        | none => (.error (.internal "lock balance"), db1)
        | some bal =>
          let userAlreadyReserved := sumUserReserves db1 userId
          if db1.reserves.any (fun r => r.userId == userId && r.orderId == orderId) then
            (.ok (), db1)
          else if (findTxByOrder db1 orderId).isSome then
            (.error .invalidState, db1)
          else
            let reserveInUserCurrency? : Except BalanceError ℚ :=
              if currency = bal.currency then .ok reserveValue
              else ConvertCurrency (reserveValue * (106 / 100)) currency bal.currency
            match reserveInUserCurrency? with
            | .error e => (.error e, db1)
            | .ok reserveInUserCurrency =>
              let spendable := bal.currentValue - userAlreadyReserved
              if spendable < reserveInUserCurrency then
                (.error .notEnoughMoney, db1)
              else if db1.reserves.any (fun r => r.orderId == orderId) then
                (.error (.internal "save reservation"), db1)
              else
                (.ok (), { db1 with reserves :=
                  db1.reserves ++ [⟨orderId, userId, itemId, currency, reserveValue, reserveInUserCurrency⟩] })

/-- `CommitReservation` of `mutate.go`.  The `DELETE FROM balance_reserve`
of step 3 happens inside the session, so on the `not_enough_money` path the
rollback restores the deleted reservation: the state returned on that path
is the pre-delete one. -/
def CommitReservation (env : Env) (db : DB) (newId : ℤ)
    (userId currency value orderId itemId : String) :
    Except BalanceError ℤ × DB :=
  if userId = "" then (.error (.badParameter "user id"), db)
  else if !IsCurrencyValid currency then (.error (.badParameter "currency"), db)
  else
    match env.parseDecimal value with
    | none => (.error (.badParameter "value"), db)
    | some commitValue =>
      if commitValue ≤ 0 then (.error (.badParameter "value"), db)
      else if orderId = "" then (.error (.badParameter "order id"), db)
      else
        let db1 := initUserBalance db userId currency
        match findBalance db1 userId with
        | none => (.error (.internal "lock balance"), db1)
        | some bal =>
          match findTxByOrder db1 orderId with
          | some t => (.ok t.id, db1)
          | none =>
            let previouslyReserved := db1.reserves.any (fun r => r.orderId == orderId)
            let commitInUserCurrency? : Except BalanceError ℚ :=
              if currency = bal.currency then .ok commitValue
              else ConvertCurrency commitValue currency bal.currency
            match commitInUserCurrency? with
            | .error e => (.error e, db1)
            | .ok commitInUserCurrency =>
              let balanceNewValue := bal.currentValue - commitInUserCurrency
              if balanceNewValue < 0 ∧ (currency = bal.currency ∨ previouslyReserved = false) then
                (.error .notEnoughMoney, db1)
              else
                let txn : Txn :=
                  { id := newId, currency := currency, value := commitValue,
                    senderId := some userId, senderCurrency := some bal.currency,
                    senderValue := some commitInUserCurrency,
                    senderBalanceBefore := some bal.currentValue,
                    senderBalanceAfter := some balanceNewValue,
                    orderData := some ⟨orderId, itemId⟩ }
                (.ok newId,
                  setBalanceValue
                    { db1 with reserves := db1.reserves.filter (fun r => r.orderId != orderId),
                               transactions := db1.transactions ++ [txn] }
                    userId balanceNewValue)

/-- `CancelReservation` of `mutate.go` (the `itemID` argument is unused by
the Go function as well). -/
def CancelReservation (db : DB) (userId orderId itemId : String) :
    Except BalanceError Unit × DB :=
  if userId = "" then (.error (.badParameter "user id"), db)
  else if orderId = "" then (.error (.badParameter "order id"), db)
  else
    match findBalance db userId with
    | none => (.error .userNotFound, db)
    | some _ =>
      match db.reserves.find? (fun r => r.orderId == orderId) with
      | none =>
        if (findTxByOrder db orderId).isSome then (.error .invalidState, db)
        else (.ok (), db)
      | some reservation =>
        if reservation.userId ≠ userId then (.error (.badParameter "user id"), db)
        else (.ok (), { db with reserves := db.reserves.filter (fun r => r.orderId != orderId) })

/-! ## Read paths of `query.go` -/

/-- `FetchUserBalance` of `query.go`: returns `(currency, available,
reserved)`.  The Go loop adds a reservation row into `reserved` only when
its value is strictly positive, and subtracts `reserved` from the balance
only when the accumulated `reserved` is strictly positive. -/
def FetchUserBalance (db : DB) (userId : String) :
    Except BalanceError (String × ℚ × ℚ) :=
  if userId = "" then .error (.badParameter "user id")
  else
    match findBalance db userId with
    | none => .error .userNotFound
    | some bal =>
      let reserved := (userReserves db userId).foldl
        (fun acc r => if 0 < r.userCurrencyValue then acc + r.userCurrencyValue else acc) 0
      let available := if 0 < reserved then bal.currentValue - reserved else bal.currentValue
      .ok (bal.currency, available, reserved)

/-! ## `FetchStatistics` of `query.go`

The two SQL queries read only these columns of `transaction`:
`transaction_currency`, `transaction_value`, `order_data ->> 'item_id'`,
and the month of `created_at`; `StatTx` is that projection of a row. -/

/-- Projection of a `transaction` row to the columns the statistics
queries read.  `itemId = none` models a NULL `order_data ->> 'item_id'`. -/
structure StatTx where
  currency : String
  value : ℚ
  itemId : Option String
  year : ℕ
  month : ℕ
deriving DecidableEq, Repr

/-- The `WHERE` clause shared by both statistics queries:
`date_trunc('month', created_at) = make_date($1, $2, 1)` and
`(order_data ->> 'item_id') is not null`. -/
def statFiltered (txs : List StatTx) (year month : ℕ) : List StatTx :=
  txs.filter (fun t => t.year == year && t.month == month && t.itemId.isSome)

/-- `select distinct transaction_currency` over the filtered rows (row
order of a `select distinct` without `order by` is unspecified; first
appearance order is one admissible order). -/
def statCurrencies (txs : List StatTx) (year month : ℕ) : List String :=
  ((statFiltered txs year month).map (·.currency)).dedup

/-- Ordered insertion for the `order by item_id asc, transaction_currency
asc` clause (lexicographic on the `(item_id, currency)` group key). -/
def statInsertSorted (x : String × String × ℚ) :
    List (String × String × ℚ) → List (String × String × ℚ)
  | [] => [x]
  | y :: ys =>
    if x.1 < y.1 ∨ (x.1 = y.1 ∧ x.2.1 ≤ y.2.1) then x :: y :: ys
    else y :: statInsertSorted x ys

/-- The grouped statistics query: one row `(item_id, currency,
sum(transaction_value))` per group, ordered by `item_id asc,
transaction_currency asc`. -/
def statRows (txs : List StatTx) (year month : ℕ) : List (String × String × ℚ) :=
  let fil := statFiltered txs year month
  let keys := (fil.map (fun t => (t.itemId.getD "", t.currency))).dedup
  let rows := keys.map (fun k =>
    (k.1, k.2, (fil.filter (fun t => t.itemId.getD "" == k.1 && t.currency == k.2)).foldr
      (fun t acc => t.value + acc) 0))
  rows.foldr statInsertSorted []

/-- One callback invocation of `StatisticsCallbacks` (the `on_error` case
is not modelled: the pure embedding has no infrastructure errors). -/
inductive StatEvent where
  | onCurrencies (currencies : List String)
  | onRecord (item : String) (values : List (String × ℚ))
deriving DecidableEq, Repr

/-- `data[currency] = value` on the Go map, as an association-list update. -/
def mapInsert (m : List (String × ℚ)) (k : String) (v : ℚ) : List (String × ℚ) :=
  if m.any (fun p => p.1 == k) then m.map (fun p => if p.1 == k then (k, v) else p)
  else m ++ [(k, v)]

/-- The row-consuming loop of `FetchStatistics` step 2, including the
unconditional final flush `callbacks.OnRecord(currentItem, data)`. -/
def statConsume (currentItem : String) (data : List (String × ℚ)) :
    List (String × String × ℚ) → List StatEvent
  | [] => [.onRecord currentItem data]
  | (item, cur, v) :: rest =>
    if item ≠ currentItem then
      (if currentItem ≠ "" then [StatEvent.onRecord currentItem data] else []) ++
        statConsume item [(cur, v)] rest
    else
      statConsume currentItem (mapInsert data cur v) rest

/-- `FetchStatistics` of `query.go` as the sequence of callback
invocations it performs on a run without infrastructure errors. -/
def FetchStatistics (txs : List StatTx) (year month : ℕ) : List StatEvent :=
  .onCurrencies (statCurrencies txs year month) :: statConsume "" [] (statRows txs year month)


/-! ## Concrete fixtures used by witnesses and counterexamples -/

/-- Oracle instantiation for concrete runs: parses the few decimal
literals the witnesses use; every string is treated as valid JSON (the
witnesses only pass empty `merchant_data`, so the JSON oracle is never
consulted). -/
def sampleEnv : Env :=
  { parseDecimal := fun s =>
      if s = "5.00" then some 5
      else if s = "40.00" then some 40
      else if s = "100.00" then some 100
      else none,
    jsonValid := fun _ => true }

/-- A user `u` with home currency EUR, balance 0, and an active
reservation of 10 EUR for order `o1`: spendable is `0 − 10 = −10`. -/
def cexDb : DB :=
  { balances := [⟨"u", "EUR", 0⟩],
    reserves := [⟨"o1", "u", "", "EUR", 10, 10⟩],
    transactions := [] }

/-- A stored top-up transaction with idempotency key `k1`. -/
def sampleTx : Txn :=
  { id := 7, currency := "EUR", value := 40, recipientId := some "u",
    recipientCurrency := some "EUR", recipientValue := some 40,
    idempotencyKey := some "k1" }

/-- A user `u` whose transaction log already holds `sampleTx`. -/
def idemDb : DB :=
  { balances := [⟨"u", "EUR", 40⟩],
    reserves := [],
    transactions := [sampleTx] }

/-- A user `u` with home currency USD and balance 10, holding a
reservation for order `oX` quoted in EUR: a commit of 40 EUR converts to
`40 × 1.03455 = 41.382` USD and drives the balance negative. -/
def overdraftDb : DB :=
  { balances := [⟨"u", "USD", 10⟩],
    reserves := [⟨"oX", "u", "", "EUR", 40, 41⟩],
    transactions := [] }

/-- A committed transaction for order `oC` (has `order_data`). -/
def committedTx : Txn :=
  { id := 8, currency := "EUR", value := 5, senderId := some "u",
    senderCurrency := some "EUR", senderValue := some 5,
    orderData := some ⟨"oC", ""⟩ }

/-- A user `u` whose order `oC` is already committed and whose order `oR`
is still reserved (by user `w` for the cross-user cancel case). -/
def cancelDb : DB :=
  { balances := [⟨"u", "EUR", 35⟩, ⟨"w", "EUR", 20⟩],
    reserves := [⟨"oR", "w", "", "EUR", 5, 5⟩],
    transactions := [committedTx] }

/-! ## Helper lemmas -/

theorem initUserBalance_of_found {db : DB} {u c : String} {b : Balance}
    (h : findBalance db u = some b) : initUserBalance db u c = db := by
  unfold initUserBalance
  rw [h]

theorem decimalDiv_zero (b : ℚ) : decimalDiv 0 b = 0 := by
  have h : roundHalfAway 0 = 0 := by
    unfold roundHalfAway
    norm_num
  unfold decimalDiv
  rw [zero_div, zero_mul, h]
  norm_num

theorem lookupRate_base : lookupRate baseCurrency = some 1 := by decide

/-! ## Claim C4: `ConvertCurrency` characterization -/

/-- C4: `ConvertCurrency(v, from, to)` rejects `v < 0` with
`bad_parameter:value`; rejects `from == to` with `bad_parameter:currency`;
rejects a `from` or `to` code that is not in the rate table with
`invalid_currency` carrying that code; otherwise computes `v_base = v`
when `from` is the base currency and `v / rates[from]` otherwise
(shopspring division, 16-digit rounding), returns `v_base` when `to` is
the base currency and `v_base * rates[to]` otherwise; and a zero input
value yields zero output. -/
theorem convertCurrency_characterization (v : ℚ) (cf ct : String) :
    (v < 0 → ConvertCurrency v cf ct = .error (.badParameter "value")) ∧
    (0 ≤ v → cf = ct → ConvertCurrency v cf ct = .error (.badParameter "currency")) ∧
    (0 ≤ v → cf ≠ ct → lookupRate cf = none →
      ConvertCurrency v cf ct = .error (.invalidCurrency cf)) ∧
    (∀ rf, 0 ≤ v → cf ≠ ct → lookupRate cf = some rf → lookupRate ct = none →
      ConvertCurrency v cf ct = .error (.invalidCurrency ct)) ∧
    (∀ rf rt, 0 ≤ v → cf ≠ ct → lookupRate cf = some rf → lookupRate ct = some rt →
      ConvertCurrency v cf ct =
        .ok (if ct = baseCurrency then (if cf = baseCurrency then v else decimalDiv v rf)
             else (if cf = baseCurrency then v else decimalDiv v rf) * rt)) ∧
    (cf ≠ ct → IsCurrencyValid cf = true → IsCurrencyValid ct = true →
      ConvertCurrency 0 cf ct = .ok 0) := by
  refine ⟨?_, ?_, ?_, ?_, ?_, ?_⟩
  · intro h
    rw [ConvertCurrency, if_pos h]
  · intro h0 he
    rw [ConvertCurrency, if_neg (not_lt.mpr h0), if_pos he]
  · intro h0 hne hnone
    have hcfb : cf ≠ baseCurrency := by
      intro hcf
      rw [hcf, lookupRate_base] at hnone
      cases hnone
    rw [ConvertCurrency, if_neg (not_lt.mpr h0), if_neg hne]
    simp [hcfb, hnone]
  · intro rf h0 hne hsome hnone
    have hctb : ct ≠ baseCurrency := by
      intro hct
      rw [hct, lookupRate_base] at hnone
      cases hnone
    rw [ConvertCurrency, if_neg (not_lt.mpr h0), if_neg hne]
    by_cases hcfb : cf = baseCurrency
    · simp [hcfb, hctb, hnone]
    · simp [hcfb, hsome, hctb, hnone]
  · intro rf rt h0 hne hsf hst
    rw [ConvertCurrency, if_neg (not_lt.mpr h0), if_neg hne]
    by_cases hv0 : v = 0
    · subst hv0
      by_cases hcfb : cf = baseCurrency
      · by_cases hctb : ct = baseCurrency
        · simp [hcfb, hctb]
        · simp [hcfb, hctb, hst]
      · by_cases hctb : ct = baseCurrency
        · simp [hcfb, hctb, hsf, decimalDiv_zero]
        · simp [hcfb, hctb, hsf, hst, decimalDiv_zero]
    · by_cases hcfb : cf = baseCurrency
      · by_cases hctb : ct = baseCurrency
        · simp [hcfb, hctb]
        · simp [hcfb, hctb, hst, hv0]
      · by_cases hctb : ct = baseCurrency
        · simp [hcfb, hctb, hsf, hv0]
        · simp [hcfb, hctb, hsf, hst, hv0]
  · intro hne hvf hvt
    obtain ⟨rf, hsf⟩ := Option.isSome_iff_exists.mp hvf
    obtain ⟨rt, hst⟩ := Option.isSome_iff_exists.mp hvt
    rw [ConvertCurrency, if_neg (by norm_num : ¬ (0:ℚ) < 0), if_neg hne]
    by_cases hcfb : cf = baseCurrency
    · by_cases hctb : ct = baseCurrency
      · exact absurd (hcfb.trans hctb.symm) hne
      · simp [hcfb, hctb, hst]
    · by_cases hctb : ct = baseCurrency
      · simp [hcfb, hctb, hsf]
      · simp [hcfb, hctb, hsf, hst]

/-- Concrete instance of `convertCurrency_characterization`:
`convert(40, EUR, USD) = 40 × 1.03455 = 41.382`. -/
theorem convertCurrency_characterization_witness :
    ConvertCurrency 40 "EUR" "USD" = .ok (41382 / 1000) := by
  have h := (convertCurrency_characterization 40 "EUR" "USD").2.2.2.2.1
    1 (103455 / 100000) (by norm_num) (by decide) (by rfl) (by rfl)
  rw [h, if_neg (by decide : ¬ ("USD" = baseCurrency)),
    if_pos (by decide : ("EUR" = baseCurrency))]
  norm_num

/-! ## Claim C10: `FetchStatistics` always flushes a final record -/

theorem statConsume_emits_record (rows : List (String × String × ℚ))
    (ci : String) (data : List (String × ℚ)) :
    ∃ item values, StatEvent.onRecord item values ∈ statConsume ci data rows := by
  induction rows generalizing ci data with
  | nil => exact ⟨ci, data, by simp [statConsume]⟩
  | cons row rest ih =>
    obtain ⟨item, cur, v⟩ := row
    by_cases h : item = ci
    · have := ih ci (mapInsert data cur v)
      simpa [statConsume, h] using this
    · obtain ⟨i, vs, hmem⟩ := ih item [(cur, v)]
      refine ⟨i, vs, ?_⟩
      simp only [statConsume, h, ne_eq, not_false_iff, if_true]
      exact List.mem_append_right _ hmem

/-- C10: every `FetchStatistics` run that reaches the data query without an
infrastructure error invokes `OnRecord` at least once (the unconditional
final flush), and when no transaction of the target month has an
`item_id`, the emitted trace is exactly `OnCurrencies []` followed by one
`OnRecord` with an empty item id and an empty value map. -/
theorem fetchStatistics_always_records (txs : List StatTx) (year month : ℕ) :
    (∃ item values, StatEvent.onRecord item values ∈ FetchStatistics txs year month) ∧
    ((∀ t ∈ txs, ¬(t.year = year ∧ t.month = month ∧ t.itemId.isSome = true)) →
      FetchStatistics txs year month = [.onCurrencies [], .onRecord "" []]) := by
  constructor
  · obtain ⟨i, vs, hmem⟩ := statConsume_emits_record (statRows txs year month) "" []
    exact ⟨i, vs, List.mem_cons_of_mem _ hmem⟩
  · intro h
    have hfil : statFiltered txs year month = [] := by
      rw [statFiltered, List.filter_eq_nil]
      intro t ht
      simp only [Bool.and_eq_true, beq_iff_eq]
      intro hcontra
      exact h t ht ⟨hcontra.1.1, hcontra.1.2, hcontra.2⟩
    simp [FetchStatistics, statCurrencies, statRows, statConsume, hfil]

/-- Concrete instance of `fetchStatistics_always_records`: a table whose
only transaction is in the target month but has no `item_id`. -/
theorem fetchStatistics_always_records_witness :
    FetchStatistics [⟨"EUR", 5, none, 2022, 11⟩] 2022 11 =
      [.onCurrencies [], .onRecord "" []] :=
  (fetchStatistics_always_records [⟨"EUR", 5, none, 2022, 11⟩] 2022 11).2 (by decide)

/-! ## Claim C2: `TopUp` idempotent replay -/

/-- C2: a `TopUp` whose idempotency key matches an already-stored
transaction returns that transaction's id and performs no mutation: the
returned state is exactly the input state (no balance change, no new
transaction row).  The hypotheses are the validation conditions of the
call, plus the existence of the user's balance row. -/
theorem topUp_idempotent_replay
    (env : Env) (db : DB) (newId : ℤ)
    (key userId currency value merchantData : String) (v : ℚ) (t : Txn) (bal : Balance)
    (hk : key ≠ "") (hu : userId ≠ "") (hc : IsCurrencyValid currency = true)
    (hv : env.parseDecimal value = some v) (hvpos : 0 < v)
    (hmd : merchantData = "" ∨ env.jsonValid merchantData = true)
    (hbal : findBalance db userId = some bal)
    (ht : findTxByIdemKey db key = some t) :
    TopUp env db newId key userId currency value merchantData = (.ok t.id, db) := by
  have hdb1 : initUserBalance db userId currency = db := initUserBalance_of_found hbal
  have hmd2 : ¬(merchantData ≠ "" ∧ env.jsonValid merchantData = false) := by
    rcases hmd with h | h
    · simp [h]
    · simp [h]
  simp [TopUp, hk, hu, hc, hv, not_le.mpr hvpos, hmd2, hdb1, hbal, ht]

/-- Concrete instance of `topUp_idempotent_replay`: replaying key `k1`
against `idemDb` returns the stored id 7 and leaves the state unchanged. -/
theorem topUp_idempotent_replay_witness :
    TopUp sampleEnv idemDb 9 "k1" "u" "EUR" "40.00" "" = (.ok 7, idemDb) :=
  topUp_idempotent_replay sampleEnv idemDb 9 "k1" "u" "EUR" "40.00" "" 40 sampleTx
    ⟨"u", "EUR", 40⟩ (by decide) (by decide) (by decide) (by rfl) (by norm_num)
    (Or.inl rfl) (by rfl) (by rfl)

/-! ## Claim C1: `CommitReservation` overdraft policy -/

/-- C1: when a commit computes a negative new balance (`current − charge <
0`; the hypotheses state that the call passes validation, is not an
idempotent replay, and that the conversion of the charge succeeds), the
call succeeds exactly when a reserve row for the order existed AND the
request currency differs from the balance currency — and then the reserve
rows for the order are deleted; in every other such case it fails with
`not_enough_money` and the state is returned unchanged (rollback). -/
theorem commit_overdraft_policy
    (env : Env) (db : DB) (newId : ℤ)
    (userId currency value orderId itemId : String) (v charge : ℚ) (bal : Balance)
    (hu : userId ≠ "") (hc : IsCurrencyValid currency = true)
    (hv : env.parseDecimal value = some v) (hvpos : 0 < v) (ho : orderId ≠ "")
    (hbal : findBalance db userId = some bal)
    (hnotx : findTxByOrder db orderId = none)
    (hcharge : (if currency = bal.currency then Except.ok v
                else ConvertCurrency v currency bal.currency) = Except.ok charge)
    (hneg : bal.currentValue - charge < 0) :
    ((db.reserves.any (fun r => r.orderId == orderId) = true ∧ currency ≠ bal.currency) →
      (CommitReservation env db newId userId currency value orderId itemId).1 = .ok newId ∧
      ∀ r ∈ (CommitReservation env db newId userId currency value orderId itemId).2.reserves,
        r.orderId ≠ orderId) ∧
    (¬(db.reserves.any (fun r => r.orderId == orderId) = true ∧ currency ≠ bal.currency) →
      CommitReservation env db newId userId currency value orderId itemId =
        (.error .notEnoughMoney, db)) := by
  have hdb1 : initUserBalance db userId currency = db := initUserBalance_of_found hbal
  constructor
  · rintro ⟨hres, hcross⟩
    rw [if_neg hcross] at hcharge
    constructor
    · simp [CommitReservation, hu, hc, hv, not_le.mpr hvpos, ho, hdb1, hbal, hnotx,
        hcharge, hres, hcross]
    · have hrs : (CommitReservation env db newId userId currency value orderId itemId).2.reserves
          = db.reserves.filter (fun r => r.orderId != orderId) := by
        simp [CommitReservation, hu, hc, hv, not_le.mpr hvpos, ho, hdb1, hbal, hnotx,
          hcharge, hres, hcross, setBalanceValue]
      rw [hrs]
      intro r hr
      have h2 := (List.mem_filter.mp hr).2
      simpa using h2
  · intro hnp
    by_cases hcur : currency = bal.currency
    · rw [if_pos hcur] at hcharge
      have hvc : v = charge := by
        injection hcharge
      subst hvc
      have hdb1c : initUserBalance db userId bal.currency = db := by
        rw [← hcur]
        exact hdb1
      have hcc : IsCurrencyValid bal.currency = true := by
        rw [← hcur]
        exact hc
      simp [CommitReservation, hu, hc, hcc, hv, not_le.mpr hvpos, ho, hdb1, hdb1c, hbal,
        hnotx, hcur, hneg]
    · have hres : db.reserves.any (fun r => r.orderId == orderId) = false := by
        rcases Bool.eq_false_or_eq_true (db.reserves.any (fun r => r.orderId == orderId)) with h | h
        · exact absurd ⟨h, hcur⟩ hnp
        · exact h
      rw [if_neg hcur] at hcharge
      simp [CommitReservation, hu, hc, hv, not_le.mpr hvpos, ho, hdb1, hbal, hnotx,
        hcharge, hcur, hres, hneg]

/-- Concrete instance of `commit_overdraft_policy`: committing 40 EUR
against a 10-USD balance (charge 41.382 USD) succeeds for the reserved
order `oX` (cross-currency overdraft) and fails with `not_enough_money`
for the unreserved order `oY`. -/
theorem commit_overdraft_policy_witness :
    (CommitReservation sampleEnv overdraftDb 9 "u" "EUR" "40.00" "oX" "").1 = .ok 9 ∧
    CommitReservation sampleEnv overdraftDb 9 "u" "EUR" "40.00" "oY" "" =
      (.error .notEnoughMoney, overdraftDb) := by
  constructor
  · exact ((commit_overdraft_policy sampleEnv overdraftDb 9 "u" "EUR" "40.00" "oX" ""
      40 (40 * (103455 / 100000)) ⟨"u", "USD", 10⟩ (by decide) (by decide) (by rfl)
      (by norm_num) (by decide) (by rfl) (by rfl) (by rfl) (by norm_num)).1
      ⟨by decide, by decide⟩).1
  · exact (commit_overdraft_policy sampleEnv overdraftDb 9 "u" "EUR" "40.00" "oY" ""
      40 (40 * (103455 / 100000)) ⟨"u", "USD", 10⟩ (by decide) (by decide) (by rfl)
      (by norm_num) (by decide) (by rfl) (by rfl) (by rfl) (by norm_num)).2
      (by decide)

/-! ## Claim C3: `Reserve` and insufficient funds -/

/-- Counterexample to C3 as stated: in `cexDb` the spendable balance is
`0 − 10 = −10 ≤ 0` and the home-currency reserve amount of the call is
`5 > spendable`, yet replaying the already-existing reservation `o1`
returns success with the state unchanged instead of `not_enough_money`. -/
theorem reserve_insufficient_claim_counterexample :
    Reserve sampleEnv cexDb "u" "EUR" "5.00" "o1" "" = (.ok (), cexDb) ∧
    sampleEnv.parseDecimal "5.00" = some 5 ∧
    findBalance cexDb "u" = some ⟨"u", "EUR", 0⟩ ∧
    sumUserReserves cexDb "u" = 10 := by
  refine ⟨?_, rfl, rfl, ?_⟩
  · decide
  · norm_num [sumUserReserves, userReserves, cexDb]

/-- C3 amended: for a `Reserve` call that passes validation and is neither
an idempotent replay (no reserve row for `(user_id, order_id)`) nor a
committed order (no transaction for `order_id`), if the home-currency
reserve amount exceeds `spendable = current_value − Σ active reserves`,
the call fails with `not_enough_money` and the state is unchanged; in
particular, when `spendable ≤ 0`, every such call with a positive
home-currency reserve amount fails. -/
theorem reserve_insufficient_funds
    (env : Env) (db : DB) (userId currency value orderId itemId : String)
    (v rv : ℚ) (bal : Balance)
    (hu : userId ≠ "") (hc : IsCurrencyValid currency = true)
    (hv : env.parseDecimal value = some v) (hvpos : 0 < v) (ho : orderId ≠ "")
    (hbal : findBalance db userId = some bal)
    (hnores : db.reserves.any (fun r => r.userId == userId && r.orderId == orderId) = false)
    (hnotx : findTxByOrder db orderId = none)
    (hrv : (if currency = bal.currency then Except.ok v
            else ConvertCurrency (v * (106 / 100)) currency bal.currency) = Except.ok rv) :
    (bal.currentValue - sumUserReserves db userId < rv →
      Reserve env db userId currency value orderId itemId = (.error .notEnoughMoney, db)) ∧
    (bal.currentValue - sumUserReserves db userId ≤ 0 → 0 < rv →
      Reserve env db userId currency value orderId itemId = (.error .notEnoughMoney, db)) := by
  have hdb1 : initUserBalance db userId currency = db := initUserBalance_of_found hbal
  have main : bal.currentValue - sumUserReserves db userId < rv →
      Reserve env db userId currency value orderId itemId = (.error .notEnoughMoney, db) := by
    intro hlt
    simp [Reserve, hu, hc, hv, not_le.mpr hvpos, ho, hdb1, hbal, hnores, hnotx, hrv, hlt]
  exact ⟨main, fun hsp hrvpos => main (lt_of_le_of_lt hsp hrvpos)⟩

/-- Concrete instance of `reserve_insufficient_funds`: reserving 5 EUR for
the fresh order `o2` while spendable is `0 − 10 = −10` fails. -/
theorem reserve_insufficient_funds_witness :
    Reserve sampleEnv cexDb "u" "EUR" "5.00" "o2" "" = (.error .notEnoughMoney, cexDb) :=
  (reserve_insufficient_funds sampleEnv cexDb "u" "EUR" "5.00" "o2" "" 5 5
    ⟨"u", "EUR", 0⟩ (by decide) (by decide) (by rfl) (by norm_num) (by decide)
    (by rfl) (by decide) (by rfl) (by rfl)).2
    (by norm_num [sumUserReserves, userReserves, cexDb]) (by norm_num)

/-! ## Claim C5: request currency absent from the rate table -/

/-- Counterexample to C5 as stated: `XXX` is absent from the rate table,
yet `TopUp` rejects it with `bad_parameter:currency`, not with
`invalid_currency{XXX}` (the same validation guards `Reserve` and
`CommitReservation`). -/
theorem invalid_currency_claim_counterexample :
    TopUp sampleEnv cexDb 9 "k1" "u" "XXX" "5.00" "" =
      (.error (.badParameter "currency"), cexDb) ∧
    IsCurrencyValid "XXX" = false ∧
    (Except.error (.badParameter "currency") : Except BalanceError ℤ) ≠
      .error (.invalidCurrency "XXX") := by
  decide

/-- C5 amended: a `TopUp`, `Reserve` or `Commit` call whose request
currency is absent from the rate table fails with
`bad_parameter:currency` (not `invalid_currency`), leaving the state
unchanged.  The earlier validations (`idempotency key` for `TopUp`,
`user id`) must pass for the currency check to be reached. -/
theorem request_currency_validation
    (env : Env) (db : DB) (newId : ℤ) (currency : String)
    (hc : IsCurrencyValid currency = false) :
    (∀ key userId value merchantData, key ≠ "" → userId ≠ "" →
      TopUp env db newId key userId currency value merchantData =
        (.error (.badParameter "currency"), db)) ∧
    (∀ userId value orderId itemId, userId ≠ "" →
      Reserve env db userId currency value orderId itemId =
        (.error (.badParameter "currency"), db)) ∧
    (∀ userId value orderId itemId, userId ≠ "" →
      CommitReservation env db newId userId currency value orderId itemId =
        (.error (.badParameter "currency"), db)) := by
  refine ⟨?_, ?_, ?_⟩
  · intro key userId value merchantData hk hu
    simp [TopUp, hk, hu, hc]
  · intro userId value orderId itemId hu
    simp [Reserve, hu, hc]
  · intro userId value orderId itemId hu
    simp [CommitReservation, hu, hc]

/-- Concrete instance of `request_currency_validation` for all three
mutations with the absent code `XXX`. -/
theorem request_currency_validation_witness :
    Reserve sampleEnv cexDb "u" "XXX" "5.00" "o9" "" =
      (.error (.badParameter "currency"), cexDb) ∧
    CommitReservation sampleEnv cexDb 9 "u" "XXX" "5.00" "o9" "" =
      (.error (.badParameter "currency"), cexDb) := by
  have h := request_currency_validation sampleEnv cexDb 9 "XXX" (by decide)
  exact ⟨h.2.1 "u" "5.00" "o9" "" (by decide), h.2.2 "u" "5.00" "o9" "" (by decide)⟩

/-! ## Claim C6: `Reserve` idempotency and order gating -/

/-- C6: a `Reserve` call (passing validation, balance row present) whose
`(user_id, order_id)` pair already has a reserve row returns success with
the state unchanged; otherwise, if some transaction carries this
`order_id` in its `order_data`, it fails with `invalid_state` and the
state is unchanged (rollback). -/
theorem reserve_idempotency_gates
    (env : Env) (db : DB) (userId currency value orderId itemId : String)
    (v : ℚ) (bal : Balance)
    (hu : userId ≠ "") (hc : IsCurrencyValid currency = true)
    (hv : env.parseDecimal value = some v) (hvpos : 0 < v) (ho : orderId ≠ "")
    (hbal : findBalance db userId = some bal) :
    (db.reserves.any (fun r => r.userId == userId && r.orderId == orderId) = true →
      Reserve env db userId currency value orderId itemId = (.ok (), db)) ∧
    (db.reserves.any (fun r => r.userId == userId && r.orderId == orderId) = false →
      (∃ t ∈ db.transactions, txOrderId t = some orderId) →
      Reserve env db userId currency value orderId itemId = (.error .invalidState, db)) := by
  have hdb1 : initUserBalance db userId currency = db := initUserBalance_of_found hbal
  constructor
  · intro hdup
    simp [Reserve, hu, hc, hv, not_le.mpr hvpos, ho, hdb1, hbal, hdup]
  · intro hdup hex
    have htx : (findTxByOrder db orderId).isSome = true := by
      rw [findTxByOrder, List.find?_isSome]
      obtain ⟨t, ht, heq⟩ := hex
      exact ⟨t, ht, by simp [heq]⟩
    simp [Reserve, hu, hc, hv, not_le.mpr hvpos, ho, hdb1, hbal, hdup, htx]

/-- Concrete instance of `reserve_idempotency_gates`: replaying the
reservation `o1` of `cexDb` is a no-op success, and reserving the already
committed order `oC` of `cancelDb` fails with `invalid_state`. -/
theorem reserve_idempotency_gates_witness :
    Reserve sampleEnv cexDb "u" "EUR" "100.00" "o1" "" = (.ok (), cexDb) ∧
    Reserve sampleEnv cancelDb "u" "EUR" "5.00" "oC" "" = (.error .invalidState, cancelDb) := by
  constructor
  · exact (reserve_idempotency_gates sampleEnv cexDb "u" "EUR" "100.00" "o1" "" 100
      ⟨"u", "EUR", 0⟩ (by decide) (by decide) (by rfl) (by norm_num)
      (by decide) (by rfl)).1 (by decide)
  · exact (reserve_idempotency_gates sampleEnv cancelDb "u" "EUR" "5.00" "oC" "" 5
      ⟨"u", "EUR", 35⟩ (by decide) (by decide) (by rfl) (by norm_num)
      (by decide) (by rfl)).2 (by decide) ⟨committedTx, by decide, by decide⟩

/-! ## Claim C7: `CancelReservation` semantics -/

/-- C7: for a `Cancel` on an existing user (balance row present): with no
reserve row and no committed transaction for the order it succeeds as an
idempotent duplicate; with no reserve row but a committed transaction it
fails with `invalid_state`; with a reserve row owned by another user it
fails with `bad_parameter:user id`; with a reserve row owned by the caller
it deletes the reserve and succeeds. -/
theorem cancel_semantics
    (db : DB) (userId orderId itemId : String) (bal : Balance)
    (hu : userId ≠ "") (ho : orderId ≠ "")
    (hbal : findBalance db userId = some bal) :
    (db.reserves.find? (fun r => r.orderId == orderId) = none →
      findTxByOrder db orderId = none →
      CancelReservation db userId orderId itemId = (.ok (), db)) ∧
    (db.reserves.find? (fun r => r.orderId == orderId) = none →
      (findTxByOrder db orderId).isSome = true →
      CancelReservation db userId orderId itemId = (.error .invalidState, db)) ∧
    (∀ res, db.reserves.find? (fun r => r.orderId == orderId) = some res →
      res.userId ≠ userId →
      CancelReservation db userId orderId itemId = (.error (.badParameter "user id"), db)) ∧
    (∀ res, db.reserves.find? (fun r => r.orderId == orderId) = some res →
      res.userId = userId →
      CancelReservation db userId orderId itemId =
        (.ok (), { db with reserves := db.reserves.filter (fun r => r.orderId != orderId) })) := by
  refine ⟨?_, ?_, ?_, ?_⟩
  · intro hres htx
    simp [CancelReservation, hu, ho, hbal, hres, htx]
  · intro hres htx
    simp [CancelReservation, hu, ho, hbal, hres, htx]
  · intro res hres hne
    simp [CancelReservation, hu, ho, hbal, hres, hne]
  · intro res hres heq
    simp [CancelReservation, hu, ho, hbal, hres, heq]

/-- Concrete instance of `cancel_semantics` exercising all four cases on
`cancelDb` (unknown order `oZ`, committed order `oC`, order `oR` reserved
by `w` cancelled by `u`, and `oR` cancelled by its owner `w`). -/
theorem cancel_semantics_witness :
    CancelReservation cancelDb "u" "oZ" "" = (.ok (), cancelDb) ∧
    CancelReservation cancelDb "u" "oC" "" = (.error .invalidState, cancelDb) ∧
    CancelReservation cancelDb "u" "oR" "" = (.error (.badParameter "user id"), cancelDb) ∧
    CancelReservation cancelDb "w" "oR" "" =
      (.ok (), { cancelDb with reserves := [] }) := by
  refine ⟨?_, ?_, ?_, ?_⟩
  · exact (cancel_semantics cancelDb "u" "oZ" "" ⟨"u", "EUR", 35⟩ (by decide) (by decide)
      (by rfl)).1 (by decide) (by decide)
  · exact (cancel_semantics cancelDb "u" "oC" "" ⟨"u", "EUR", 35⟩ (by decide) (by decide)
      (by rfl)).2.1 (by decide) (by decide)
  · exact (cancel_semantics cancelDb "u" "oR" "" ⟨"u", "EUR", 35⟩ (by decide) (by decide)
      (by rfl)).2.2.1 ⟨"oR", "w", "", "EUR", 5, 5⟩ (by decide) (by decide)
  · have h := (cancel_semantics cancelDb "w" "oR" "" ⟨"w", "EUR", 20⟩ (by decide) (by decide)
      (by rfl)).2.2.2 ⟨"oR", "w", "", "EUR", 5, 5⟩ (by decide) (by decide)
    rw [h]
    decide

/-! ## Claim C8: `FetchUserBalance` reserved and available -/

theorem foldr_reserve_sum_nonneg (l : List ReserveRow)
    (h : ∀ r ∈ l, 0 ≤ r.userCurrencyValue) :
    0 ≤ l.foldr (fun r acc => r.userCurrencyValue + acc) 0 := by
  induction l with
  | nil => simp
  | cons r rest ih =>
    have hr := h r (List.mem_cons_self _ _)
    have h2 := ih (fun x hx => h x (List.mem_cons_of_mem _ hx))
    simpa using add_nonneg hr h2

theorem foldl_positive_rows_eq_sum (l : List ReserveRow) (acc : ℚ)
    (h : ∀ r ∈ l, 0 ≤ r.userCurrencyValue) :
    l.foldl (fun acc r => if 0 < r.userCurrencyValue then acc + r.userCurrencyValue else acc) acc
      = acc + l.foldr (fun r acc => r.userCurrencyValue + acc) 0 := by
  induction l generalizing acc with
  | nil => simp
  | cons r rest ih =>
    have hr := h r (List.mem_cons_self _ _)
    have hrest : ∀ x ∈ rest, 0 ≤ x.userCurrencyValue :=
      fun x hx => h x (List.mem_cons_of_mem _ hx)
    by_cases hpos : 0 < r.userCurrencyValue
    · rw [List.foldl_cons, List.foldr_cons, if_pos hpos, ih _ hrest]
      ring
    · have hz : r.userCurrencyValue = 0 := le_antisymm (not_lt.mp hpos) hr
      rw [List.foldl_cons, List.foldr_cons, if_neg hpos, ih _ hrest, hz, zero_add]

/-- C8: for a user with a balance row (and the engine invariant that all
stored reserve amounts are nonnegative), `FetchUserBalance` returns
`reserved = max(0, Σ user_currency_value over the user's reserve rows)`
and `available = current_value − reserved` — in particular, with no
reserves, `available = current_value` even when `current_value` is
negative. -/
theorem fetchBalance_reserved_available
    (db : DB) (userId : String) (bal : Balance)
    (hu : userId ≠ "") (hbal : findBalance db userId = some bal)
    (hpos : ∀ r ∈ userReserves db userId, 0 ≤ r.userCurrencyValue) :
    FetchUserBalance db userId =
      .ok (bal.currency, bal.currentValue - max 0 (sumUserReserves db userId),
        max 0 (sumUserReserves db userId)) := by
  have hS : sumUserReserves db userId
      = (userReserves db userId).foldr (fun r acc => r.userCurrencyValue + acc) 0 := rfl
  have hsum : 0 ≤ sumUserReserves db userId := by
    rw [hS]
    exact foldr_reserve_sum_nonneg _ hpos
  have hres : (userReserves db userId).foldl
      (fun acc r => if 0 < r.userCurrencyValue then acc + r.userCurrencyValue else acc) 0
      = sumUserReserves db userId := by
    rw [foldl_positive_rows_eq_sum _ _ hpos, zero_add, hS]
  rw [max_eq_right hsum]
  by_cases h0 : 0 < sumUserReserves db userId
  · simp [FetchUserBalance, hu, hbal, hres, h0]
  · have hz : sumUserReserves db userId = 0 := le_antisymm (not_lt.mp h0) hsum
    simp [FetchUserBalance, hu, hbal, hres, h0, hz]

/-- Concrete instance of `fetchBalance_reserved_available` on `cexDb`:
`reserved = 10`, `available = 0 − 10 = −10`. -/
theorem fetchBalance_reserved_available_witness :
    FetchUserBalance cexDb "u" = .ok ("EUR", -10, 10) := by
  have h := fetchBalance_reserved_available cexDb "u" ⟨"u", "EUR", 0⟩
    (by decide) (by rfl) (by decide)
  rw [h]
  norm_num [sumUserReserves, userReserves, cexDb]

/-! ## Support for the C8 hypothesis: the engine stores only nonnegative
reserve amounts (`Reserve` is the only operation that inserts reserve
rows; `CommitReservation` and `CancelReservation` only delete them). -/

set_option maxRecDepth 4000 in
theorem ratesList_pos : ∀ p ∈ ratesList, 0 < p.2 := by
  intro p hp
  simp only [ratesList, List.mem_cons, List.not_mem_nil, or_false] at hp
  repeat' rcases hp with h | hp
  all_goals subst_vars
  all_goals norm_num

theorem lookup_pos_aux (l : List (String × ℚ)) (hl : ∀ p ∈ l, 0 < p.2) :
    ∀ c r, l.lookup c = some r → 0 < r := by
  induction l with
  | nil =>
    intro c r h
    cases h
  | cons p rest ih =>
    intro c r h
    obtain ⟨k, val⟩ := p
    rw [List.lookup] at h
    cases hc : c == k with
    | true =>
      rw [hc] at h
      simp only [] at h
      injection h with h
      exact h ▸ hl (k, val) (List.mem_cons_self _ _)
    | false =>
      rw [hc] at h
      simp only [] at h
      exact ih (fun q hq => hl q (List.mem_cons_of_mem _ hq)) c r h

theorem lookupRate_pos {c : String} {r : ℚ} (h : lookupRate c = some r) : 0 < r :=
  lookup_pos_aux ratesList ratesList_pos c r h

theorem roundHalfAway_nonneg {q : ℚ} (h : 0 ≤ q) : 0 ≤ roundHalfAway q := by
  rw [roundHalfAway, if_pos h]
  rw [Int.le_floor]
  push_cast
  linarith

theorem decimalDiv_nonneg {a b : ℚ} (ha : 0 ≤ a) (hb : 0 ≤ b) : 0 ≤ decimalDiv a b := by
  rw [decimalDiv]
  have hq : (0:ℚ) ≤ a / b * 10 ^ 16 := by positivity
  have := roundHalfAway_nonneg hq
  positivity

theorem convertCurrency_ok_nonneg {v : ℚ} {cf ct : String} {w : ℚ}
    (h : ConvertCurrency v cf ct = .ok w) : 0 ≤ w := by
  rw [ConvertCurrency] at h
  by_cases h1 : v < 0
  · rw [if_pos h1] at h
    cases h
  rw [if_neg h1] at h
  by_cases h2 : cf = ct
  · rw [if_pos h2] at h
    cases h
  rw [if_neg h2] at h
  have hv : 0 ≤ v := not_lt.mp h1
  have hvb : ∀ vb, (if cf = baseCurrency then Except.ok v
      else match lookupRate cf with
        | none => Except.error (BalanceError.invalidCurrency cf)
        | some rate => Except.ok (if v = 0 then 0 else decimalDiv v rate)) = .ok vb →
      0 ≤ vb := by
    intro vb hb
    by_cases h3 : cf = baseCurrency
    · rw [if_pos h3] at hb
      injection hb with hb
      subst hb
      exact hv
    · rw [if_neg h3] at hb
      cases hlf : lookupRate cf with
      | none =>
        rw [hlf] at hb
        cases hb
      | some rf =>
        rw [hlf] at hb
        injection hb with hb
        subst hb
        by_cases hz : v = 0
        · simp [hz]
        · rw [if_neg hz]
          exact decimalDiv_nonneg hv (le_of_lt (lookupRate_pos hlf))
  cases hb : (if cf = baseCurrency then Except.ok v
      else match lookupRate cf with
        | none => Except.error (BalanceError.invalidCurrency cf)
        | some rate => Except.ok (if v = 0 then 0 else decimalDiv v rate)) with
  | error e =>
    rw [hb] at h
    cases h
  | ok vb =>
    rw [hb] at h
    simp only [] at h
    have hvb2 := hvb vb hb
    by_cases h4 : ct = baseCurrency
    · rw [if_pos h4] at h
      injection h with h
      subst h
      exact hvb2
    · rw [if_neg h4] at h
      cases hlt : lookupRate ct with
      | none =>
        rw [hlt] at h
        cases h
      | some rt =>
        rw [hlt] at h
        injection h with h
        subst h
        by_cases hz : v = 0
        · simp [hz]
        · rw [if_neg hz]
          exact mul_nonneg hvb2 (le_of_lt (lookupRate_pos hlt))

theorem initUserBalance_reserves (db : DB) (u c : String) :
    (initUserBalance db u c).reserves = db.reserves := by
  rw [initUserBalance]
  cases findBalance db u <;> rfl

/-- `Reserve` preserves nonnegativity of the stored reserve amounts: the
only row it can insert carries the validated positive request value or a
nonnegative `ConvertCurrency` result. -/
theorem reserve_keeps_rows_nonneg
    (env : Env) (db : DB) (userId currency value orderId itemId : String)
    (hdb : ∀ r ∈ db.reserves, 0 ≤ r.userCurrencyValue) :
    ∀ r ∈ (Reserve env db userId currency value orderId itemId).2.reserves,
      0 ≤ r.userCurrencyValue := by
  rw [Reserve]
  simp only [initUserBalance_reserves]
  by_cases hu : userId = ""
  · rw [if_pos hu]
    simpa using hdb
  rw [if_neg hu]
  by_cases hc : (!IsCurrencyValid currency) = true
  · rw [if_pos hc]
    simpa using hdb
  rw [if_neg hc]
  cases hp : env.parseDecimal value with
  | none => simpa using hdb
  | some v =>
    simp only []
    by_cases hvle : v ≤ 0
    · rw [if_pos hvle]
      simpa using hdb
    rw [if_neg hvle]
    by_cases ho : orderId = ""
    · rw [if_pos ho]
      simpa using hdb
    rw [if_neg ho]
    cases hb : findBalance (initUserBalance db userId currency) userId with
    | none => simpa [initUserBalance_reserves] using hdb
    | some bal =>
      simp only [initUserBalance_reserves]
      by_cases hdup : db.reserves.any (fun r => r.userId == userId && r.orderId == orderId) = true
      · rw [if_pos hdup]
        simpa [initUserBalance_reserves] using hdb
      rw [if_neg hdup]
      by_cases htx : (findTxByOrder (initUserBalance db userId currency) orderId).isSome = true
      · rw [if_pos htx]
        simpa [initUserBalance_reserves] using hdb
      rw [if_neg htx]
      cases hcv : (if currency = bal.currency then Except.ok v
          else ConvertCurrency (v * (106 / 100)) currency bal.currency) with
      | error e => simpa [initUserBalance_reserves] using hdb
      | ok rv =>
        simp only []
        have hrv : 0 ≤ rv := by
          by_cases hcur : currency = bal.currency
          · rw [if_pos hcur] at hcv
            injection hcv with hcv
            subst hcv
            exact le_of_lt (lt_of_not_le hvle)
          · rw [if_neg hcur] at hcv
            exact convertCurrency_ok_nonneg hcv
        by_cases hlt : bal.currentValue - sumUserReserves (initUserBalance db userId currency) userId < rv
        · rw [if_pos hlt]
          simpa [initUserBalance_reserves] using hdb
        rw [if_neg hlt]
        by_cases hpk : db.reserves.any (fun r => r.orderId == orderId) = true
        · rw [if_pos hpk]
          simpa [initUserBalance_reserves] using hdb
        rw [if_neg hpk]
        intro r hr
        simp only [List.mem_append, List.mem_singleton] at hr
        rcases hr with hmem | hmem
        · exact hdb r hmem
        · subst hmem
          exact hrv
